import Mathlib

/-!
Verification of the ZeroBloatEmulator backend core (VM supervisor, SSH session
manager, hotplug coordinator, path sanitiser) against its specification.

The Python sources are shallowly embedded as executable Lean definitions:
  * `backend/core/file_ops.py`   → `FileOps` namespace
  * `backend/core/ssh_worker.py` → `SshWorker` namespace
  * `backend/core/vm_manager.py` → `VmManager` namespace
  * `backend/app.py` (mount/eject routes) → `AppApi` namespace
Remote guest behaviour and OS effects are modelled by explicit environment
records; sequences of executed commands are threaded as histories/traces so
that ordering properties are expressible.

String primitives are re-implemented over `List Char` by structural recursion
so that every definition evaluates inside the kernel (`decide`/`rfl`); each
mirrors the CPython behaviour on the inputs this code feeds it.
-/

deriving instance DecidableEq for Except

namespace Py

/-- `String.mk`, named for readability at use sites. -/
def ofChars (l : List Char) : String := ⟨l⟩

/-- `p` is a prefix of `l` (character lists). -/
def isPrefixList : List Char → List Char → Bool
  | [], _ => true
  | _ :: _, [] => false
  | a :: as, b :: bs => a = b && isPrefixList as bs

/-- Python `p in s` (substring containment) over character lists. -/
def containsSubList (l pat : List Char) : Bool :=
  match l with
  | [] => pat.isEmpty
  | _ :: rest => isPrefixList pat l || containsSubList rest pat

/-- Python `pat in s` (substring containment). -/
def strContains (s pat : String) : Bool :=
  containsSubList s.toList pat.toList

/-- Python `s.startswith(p)`. -/
def strStartsWith (s p : String) : Bool :=
  isPrefixList p.toList s.toList

/-- Split a character list at every occurrence of `sep`, keeping empty
fields — the behaviour of Python `s.split(sep)` for a one-character `sep`. -/
def splitChar (sep : Char) (l : List Char) : List (List Char) :=
  l.foldr (fun c acc =>
    if c = sep then [] :: acc
    else match acc with
      | [] => [[c]]
      | g :: gs => (c :: g) :: gs) [[]]

/-- Python `str.split()` with no argument: split on whitespace runs,
discarding empty fields. -/
def pySplitWs (s : String) : List String :=
  ((s.toList.foldr (fun c acc =>
    if c.isWhitespace then [] :: acc
    else match acc with
      | [] => [[c]]
      | g :: gs => (c :: g) :: gs) [[]]).filter (· ≠ [])).map ofChars

/-- Python `str.splitlines()` restricted to `'\n'` terminators (the only line
terminator in the command outputs this code parses): split at newlines and
drop the trailing empty piece a final newline would produce. -/
def pySplitLines (s : String) : List String :=
  let ps := splitChar '\n' s.toList
  (if ps.getLast? = some [] then ps.dropLast else ps).map ofChars

/-- Python `str.strip()` (no argument): remove leading and trailing
whitespace. -/
def pyStrip (s : String) : String :=
  ofChars ((((s.toList.dropWhile Char.isWhitespace).reverse.dropWhile
    Char.isWhitespace).reverse))

/-- Python `s.lstrip("/")`: drop every leading `'/'`. -/
def lstripSlash (s : String) : String :=
  ofChars (s.toList.dropWhile (· = '/'))

/-- Python `s.rstrip("/")`: drop every trailing `'/'`. -/
def rstripSlash (s : String) : String :=
  ofChars ((s.toList.reverse.dropWhile (· = '/')).reverse)

/-- Parse a run of decimal digits; `none` when empty or non-digit. -/
def digitsToNat (l : List Char) : Option Nat :=
  if l = [] then none
  else if l.all Char.isDigit then
    some (l.foldl (fun n c => n * 10 + (c.toNat - '0'.toNat)) 0)
  else none

/-- Python `int(s)` on the strings this code feeds it (fields produced by
`str.split()`, i.e. no surrounding whitespace): an optional sign followed by
decimal digits; `none` models `ValueError`. -/
def pyToInt (s : String) : Option Int :=
  match s.toList with
  | '-' :: rest => (digitsToNat rest).map (fun n => -(n : Int))
  | '+' :: rest => (digitsToNat rest).map (fun n => (n : Int))
  | l => (digitsToNat l).map (fun n => (n : Int))

/-- Lexicographic (code-point) order on strings, the order Python `sorted`
uses on `str`. -/
def listLt : List Char → List Char → Bool
  | [], [] => false
  | [], _ :: _ => true
  | _ :: _, [] => false
  | a :: as, b :: bs => if a < b then true else if b < a then false else listLt as bs

/-- `x < y` for strings under the code-point lexicographic order. -/
def strLt (x y : String) : Bool := listLt x.toList y.toList

/-- `sorted(xs)[0]` on a non-empty collection of strings: the lexicographic
minimum. Returns `none` on the empty list. -/
def minString? (l : List String) : Option String :=
  l.foldl (fun acc x =>
    match acc with
    | none => some x
    | some a => some (if strLt x a then x else a)) none

end Py

namespace FileOps

open Py

/-- `posixpath.normpath` (CPython), written over `/`-separated components:
drop empty and `"."` components, resolve `".."` against preceding components
(absolute paths discard leading `".."`), and preserve the one-versus-two
leading-slashes distinction. -/
def pyNormpath (path : String) : String :=
  if path = "" then "."
  else
    let initialSlashes : Nat :=
      if strStartsWith path "/" then
        if strStartsWith path "//" ∧ ¬ strStartsWith path "///" then 2 else 1
      else 0
    let comps := (splitChar '/' path.toList).map ofChars
    let newComps := comps.foldl (fun acc comp =>
      if comp = "" ∨ comp = "." then acc
      else if comp ≠ ".." ∨ (initialSlashes = 0 ∧ acc = []) ∨ acc.getLast? = some ".." then
        acc ++ [comp]
      else if acc ≠ [] then acc.dropLast
      else acc) []
    let joined := String.join (newComps.intersperse "/")
    let out := String.join (List.replicate initialSlashes "/") ++ joined
    if out = "" then "." else out

/-- `safe_remote_path(user_path, mount_point)` from `backend/core/file_ops.py`:
normalise the user path against the mount point and reject (`ValueError`,
modelled as `Except.error`) any canonical path that escapes the mount point.
On success returns `(vm_path, display_path)`. -/
def safe_remote_path (userPath : String) (mountPoint : String) :
    Except String (String × String) :=
  let mp := rstripSlash mountPoint
  let clean := pyNormpath ("/" ++ lstripSlash userPath)
  let vmPath := mp ++ clean
  let canonical := pyNormpath vmPath
  if canonical = mp ∨ strStartsWith canonical (mp ++ "/") then
    Except.ok (canonical, clean)
  else
    Except.error "Path traversal detected"

end FileOps

namespace Cfg

/-- `backend/config.py`: the guest path the target partition is mounted at. -/
def MOUNT_POINT : String := "/mnt/android"

/-- `backend/config.py`: the static legacy mount-candidate list. -/
def DRIVE1_CANDIDATES : List String :=
  ["/dev/vdb2", "/dev/vdb1", "/dev/vdb", "/dev/sdb2", "/dev/sdb1", "/dev/sdb"]

end Cfg

namespace SshWorker

open Py

/-- The sentinel string echoed by `check_health()` (`ssh_worker.py` line 13). -/
def HEALTH_SENTINEL : String := "KhanhNguyen9872"

/-- The module-level `import` statements of `backend/core/ssh_worker.py`
(lines 1–8) bind exactly these names: `os`, `datetime` (from `datetime`),
`paramiko`, `sys`, `get_logger` and `cfg`. -/
def moduleImports : List String :=
  ["os", "datetime", "paramiko", "sys", "get_logger", "cfg"]

/-- Every name bound at module level in `ssh_worker.py`: the imports plus the
module's own top-level assignments and class definition. -/
def moduleNames : List String :=
  moduleImports ++ ["logger", "_HEALTH_SENTINEL", "SSHWorker"]

/-- The Python builtins a bare name inside this module could fall back to;
neither `time` nor `socket` is a builtin module-free name. -/
def pythonBuiltins : List String :=
  ["len", "int", "str", "print", "range", "Exception", "OSError",
   "TimeoutError", "RuntimeError", "ValueError", "ImportError"]

/-- Python name resolution for a bare name used inside a method of this
module with no local binding: module globals, then builtins. -/
def resolvesName (n : String) : Bool :=
  moduleNames.contains n || pythonBuiltins.contains n

/-- Host-network behaviour during boot, indexed by poll attempt:
whether the raw TCP reachability check succeeds and whether the full
`connect()` succeeds at that attempt. -/
structure NetEnv where
  tcpReachable : Nat → Bool
  connectOk : Nat → Bool

/-- Outcome of `wait_for_connection`. -/
inductive WaitResult where
  | ok
  | timeoutError
  | nameError (n : String)
deriving DecidableEq

/-- The polling loop of `wait_for_connection` (lines 52–71), attempt-indexed:
while the clock is before the deadline, try the TCP check then `connect()`,
sleeping 2 s after every failed attempt. The fuel argument only bounds the
recursion; `timeout + 1` iterations always cover the deadline because each
failed attempt advances the clock by 2. -/
def waitLoop (env : NetEnv) (timeout : Nat) : Nat → Nat → Nat → WaitResult
  | 0, _, _ => .timeoutError
  | fuel + 1, now, attempt =>
    if now < timeout then
      if ¬ env.tcpReachable attempt then waitLoop env timeout fuel (now + 2) (attempt + 1)
      else if env.connectOk attempt then .ok
      else waitLoop env timeout fuel (now + 2) (attempt + 1)
    else .timeoutError

/-- `wait_for_connection(timeout)` (`ssh_worker.py` lines 47–72). Its first
statement, `deadline = time.monotonic() + timeout`, evaluates the bare name
`time` (and the loop body would evaluate `socket`), which Python resolves
against the enclosing scopes at call time — before any polling happens. -/
def wait_for_connection (timeout : Nat) (env : NetEnv) : WaitResult :=
  if ¬ resolvesName "time" then .nameError "time"
  else if ¬ resolvesName "socket" then .nameError "socket"
  else waitLoop env timeout (timeout + 1) 0 0

/-- Behaviour of the ad-hoc probe connection in `check_health()`:
whether `probe.connect(...)` succeeds, and the decoded output of the probe
command (`none` models an exception from `exec_command`/`read`). -/
structure ProbeEnv where
  connectOk : Bool
  execOut : Option String

/-- Observable outcome of `check_health()`: the returned boolean and whether
the probe connection was closed before returning. -/
structure ProbeOutcome where
  result : Bool
  probeClosed : Bool
deriving DecidableEq

/-- `check_health()` (`ssh_worker.py` lines 82–118): a fresh probe client is
created and connected (never `self._client`, which is passed here only to
show it is ignored); any exception yields `False` (lines 109–112); the
`finally` block (lines 113–118) closes the probe on every path. -/
def check_health (persistentClient : Option Unit) (env : ProbeEnv) : ProbeOutcome :=
  if ¬ env.connectOk then { result := false, probeClosed := true }
  else
    match env.execOut with
    | none => { result := false, probeClosed := true }
    | some out => { result := pyStrip out = HEALTH_SENTINEL, probeClosed := true }

/-- Guest responses to `execute_command`, as a function of the history of
commands already issued in this call and the current command; `none` models
an exception raised by `execute_command`. -/
def GuestEnv := List String → String → Option String

/-- Issue one command: extend the history and consult the guest. -/
def exec (env : GuestEnv) (hist : List String) (cmd : String) :
    List String × Option String :=
  (hist ++ [cmd], env hist cmd)

/-- `mkdir -p {MOUNT_POINT}` (line 143). -/
def cmdMkdir : String := "mkdir -p " ++ Cfg.MOUNT_POINT

/-- `umount {MOUNT_POINT} 2>/dev/null || true` (line 144). -/
def cmdUmount : String := "umount " ++ Cfg.MOUNT_POINT ++ " 2>/dev/null || true"

/-- The LDPlayer `/dev/vdb2` probe (line 153). -/
def cmdProbeVdb2 : String :=
  "lsblk -d -n -o NAME /dev/vdb2 2>/dev/null && echo YES || echo NO"

/-- The partition enumeration for the largest-partition fallback (lines 164–167). -/
def cmdLsblkParts : String :=
  "lsblk -rn -b -o NAME,SIZE,TYPE /dev/vdb 2>/dev/null || " ++
    "lsblk -rn -b -o NAME,SIZE,TYPE /dev/sdb 2>/dev/null"

/-- The mount attempt for one candidate device (line 213). -/
def cmdMount (device : String) : String :=
  "mount -t ext4 -o rw,noatime " ++ device ++ " " ++ Cfg.MOUNT_POINT ++ " 2>&1"

/-- The mount-point verification (line 216). -/
def cmdVerify : String :=
  "mountpoint -q " ++ Cfg.MOUNT_POINT ++ " && echo OK || echo FAIL"

/-- The post-mount Android root-marker sanity check (line 223). -/
def cmdCheckFs : String :=
  "ls " ++ Cfg.MOUNT_POINT ++ "/app || ls " ++ Cfg.MOUNT_POINT ++
    "/system 2>/dev/null && echo CHECK_OK || echo CHECK_FAIL"

/-- Running best-partition state of the size scan (lines 169–170). -/
structure BestPart where
  best : Option String
  maxSize : Int
deriving DecidableEq

/-- One iteration of the partition-size scan (lines 172–183): keep the line's
device name when it is a `part` row whose size parses and strictly exceeds
the running maximum. -/
def scanPartLine (acc : BestPart) (line : String) : BestPart :=
  match pySplitWs line with
  | name :: sizeStr :: ty :: _ =>
    if ty = "part" then
      match pyToInt sizeStr with
      | none => acc
      | some size => if size > acc.maxSize then { best := some name, maxSize := size } else acc
    else acc
  | _ => acc

/-- The largest-partition fallback parser (lines 169–193): scan the raw
`lsblk` output and return the largest `part` row as a `/dev/`-prefixed
device name. -/
def largestPartFromRaw (raw : String) : Option String :=
  let b := (pySplitLines raw).foldl scanPartLine { best := none, maxSize := -1 }
  match b.best with
  | none => none
  | some name => some (if strStartsWith name "/" then name else "/dev/" ++ name)

/-- The intelligent-selection phase of `mount_target` (lines 146–196):
Strategy 1 probes `/dev/vdb2` only for `LDPLAYER`; Strategy 2 (largest
partition) runs only when Strategy 1 produced no candidate. Exceptions from
either probe are caught (lines 157–158, 195–196) and leave the candidate
unset. Returns the extended history and the chosen candidate. -/
def strategyCandidate (emu : Option String) (env : GuestEnv) (hist : List String) :
    List String × Option String :=
  let s1 :=
    if emu = some "LDPLAYER" then
      let (h1, r) := exec env hist cmdProbeVdb2
      match r with
      | some out => (h1, if pyStrip out = "YES" then some "/dev/vdb2" else none)
      | none => (h1, none)
    else (hist, none)
  match s1.2 with
  | some c => (s1.1, some c)
  | none =>
    let (h2, r) := exec env s1.1 cmdLsblkParts
    match r with
    | some raw => (h2, largestPartFromRaw raw)
    | none => (h2, none)

/-- The candidate order `mount_target` tries (lines 202–209): the smart
candidate first when present, then the static list minus that candidate. -/
def mtCandidates (cand : Option String) : List String :=
  (match cand with | some c => [c] | none => []) ++
    Cfg.DRIVE1_CANDIDATES.filter (fun d => some d != cand)

/-- A successful `mount_target` run: the returned device, the
`is_android_mounted` flag, the raw output of the sanity check that set it,
and the per-candidate trace `(device, verified?)` in attempt order. -/
structure MountOk where
  device : String
  isAndroidMounted : Bool
  fsCheck : String
  attempts : List (String × Bool)
deriving DecidableEq

/-- Outcome of the candidate loop (lines 211–233). -/
inductive LoopOut where
  | ok (r : MountOk)
  | exhausted (attempts : List (String × Bool))
  | raised
deriving DecidableEq

/-- Outcome of `mount_target` (lines 142–237). -/
inductive MountTargetResult where
  | ok (r : MountOk)
  | mountFailed (candidates : List String)
  | raised
deriving DecidableEq

/-- The execution-and-verification loop (lines 211–233): for each candidate
in order, attempt the mount, verify with `mountpoint`, and on the first
verified success run the sanity check, set the flag from its output, and
return. `execute_command` exceptions propagate (`raised`). -/
def mtLoop (env : GuestEnv) (hist : List String) (acc : List (String × Bool)) :
    List String → LoopOut
  | [] => .exhausted acc
  | d :: rest =>
    let (h1, rm) := exec env hist (cmdMount d)
    match rm with
    | none => .raised
    | some _ =>
      let (h2, rv) := exec env h1 cmdVerify
      match rv with
      | none => .raised
      | some chk =>
        if pyStrip chk = "OK" then
          let (h3, rf) := exec env h2 cmdCheckFs
          match rf with
          | none => .raised
          | some fsOut =>
            .ok { device := d, isAndroidMounted := !(strContains fsOut "CHECK_FAIL"),
                  fsCheck := fsOut, attempts := acc ++ [(d, true)] }
        else mtLoop env h2 (acc ++ [(d, false)]) rest

/-- `mount_target()` (`ssh_worker.py` lines 142–237): prepare the mount
point, run the selection strategies, then try the candidates in order;
`mountFailed` carries the full candidate list named by the `RuntimeError`
(lines 235–237). -/
def mount_target (emu : Option String) (env : GuestEnv) : MountTargetResult :=
  let (h1, r1) := exec env [] cmdMkdir
  match r1 with
  | none => .raised
  | some _ =>
    let (h2, r2) := exec env h1 cmdUmount
    match r2 with
    | none => .raised
    | some _ =>
      let (h3, cand) := strategyCandidate emu env h2
      match mtLoop env h3 [] (mtCandidates cand) with
      | .ok r => .ok r
      | .exhausted _ => .mountFailed (mtCandidates cand)
      | .raised => .raised

/-- The smart candidate `mount_target` computes, as a function of the
emulator type and the guest (histories are deterministic, so this names the
candidate chosen after the two preparation commands). -/
def smartCand (emu : Option String) (env : GuestEnv) : Option String :=
  (strategyCandidate emu env [cmdMkdir, cmdUmount]).2

/-- A concrete guest: the LDPlayer probe reports `/dev/vdb2` present, the
partition enumeration reports `/dev/vdb3` as the largest partition, and no
mount ever verifies. -/
def envLd : GuestEnv := fun _ cmd =>
  if cmd = cmdProbeVdb2 then some "YES"
  else if cmd = cmdLsblkParts then some "vdb1 100 part\nvdb3 999 part"
  else if cmd = cmdVerify then some "FAIL"
  else some ""

/-- A concrete guest: the first candidate mounts and verifies, but the
root-marker sanity check reports `CHECK_FAIL`. -/
def envFs : GuestEnv := fun _ cmd =>
  if cmd = cmdVerify then some "OK"
  else if cmd = cmdCheckFs then some "CHECK_FAIL"
  else some ""

end SshWorker

namespace VmManager

/-- State of `QemuManager` (`vm_manager.py` lines 18–20): the owned child
process (modelled by its pid) and the adopted pid. Python truthiness makes
an adopted pid of `0` behave like `None`, which the embedding preserves. -/
structure VmState where
  currentProcess : Option Nat
  attachedPid : Option Nat
deriving DecidableEq

/-- OS behaviour consulted by the manager: child liveness (`poll()`),
`psutil.pid_exists`, the port probe, asset existence, the pid `Popen`
assigns, and which exceptions/timeouts the termination calls hit. -/
structure ProcEnv where
  pollAlive : Nat → Bool
  pidExists : Nat → Bool
  portInUse : Bool
  qemuExecExists : Bool
  workerImageExists : Bool
  spawnPid : Nat
  terminateRaises : Bool
  waitTimesOut : Bool
  psNoSuchProcess : Bool
  psWaitTimesOut : Bool

/-- `is_running` (`vm_manager.py` lines 30–44): the owned handle is consulted
first; otherwise a truthy adopted pid is checked for existence, and a dead
adopted pid is lazily cleared. -/
def is_running (s : VmState) (env : ProcEnv) : Bool × VmState :=
  match s.currentProcess with
  | some p => (env.pollAlive p, s)
  | none =>
    match s.attachedPid with
    | some pid =>
      if pid = 0 then (false, s)
      else if env.pidExists pid then (true, s)
      else (false, { s with attachedPid := none })
    | none => (false, s)

/-- Errors raised by `start_service` (`vm_manager.py` lines 74–93). -/
inductive StartErr where
  | alreadyRunning
  | portConflict
  | missingQemu
  | missingImage
deriving DecidableEq

/-- Observable outcome of `start_service`: the raised error or returned pid,
the state on return, and whether a child process was spawned. -/
structure StartResult where
  result : Except StartErr Nat
  state : VmState
  spawned : Bool
deriving DecidableEq

/-- `start_service` (`vm_manager.py` lines 58–119): reject while running,
then the port/asset preconditions, then spawn and store the child. -/
def start_service (s : VmState) (env : ProcEnv) : StartResult :=
  let r := is_running s env
  if r.1 then { result := .error .alreadyRunning, state := r.2, spawned := false }
  else if env.portInUse then { result := .error .portConflict, state := r.2, spawned := false }
  else if ¬ env.qemuExecExists then
    { result := .error .missingQemu, state := r.2, spawned := false }
  else if ¬ env.workerImageExists then
    { result := .error .missingImage, state := r.2, spawned := false }
  else
    { result := .ok env.spawnPid,
      state := { r.2 with currentProcess := some env.spawnPid }, spawned := true }

/-- Termination-related calls `stop_service` makes, in order. -/
inductive StopAct where
  | terminate
  | waitGrace
  | kill
  | psTerminate
  | psKill
deriving DecidableEq

/-- `stop_service` (`vm_manager.py` lines 126–178). No-op (clearing state)
when nothing is running. The owned-child branch wraps terminate/wait/kill in
`try/except Exception` with `finally: self.current_process = None`
(lines 142–157); the adopted branch wraps the psutil calls in
`try/except` with `finally: self._attached_pid = None` (lines 160–176).
Every exception is caught, so the function is total; the returned trace
records which termination calls were made. -/
def stop_service (s : VmState) (env : ProcEnv) : VmState × List StopAct :=
  let r := is_running s env
  if ¬ r.1 then ({ currentProcess := none, attachedPid := none }, [])
  else
    match r.2.currentProcess with
    | some _ =>
      let acts :=
        if env.terminateRaises then [StopAct.terminate]
        else if env.waitTimesOut then [StopAct.terminate, StopAct.waitGrace, StopAct.kill]
        else [StopAct.terminate, StopAct.waitGrace]
      ({ r.2 with currentProcess := none }, acts)
    | none =>
      match r.2.attachedPid with
      | some pid =>
        if pid ≠ 0 then
          let acts :=
            if env.psNoSuchProcess then [StopAct.psTerminate]
            else if env.psWaitTimesOut then
              [StopAct.psTerminate, StopAct.waitGrace, StopAct.psKill]
            else [StopAct.psTerminate, StopAct.waitGrace]
          ({ r.2 with attachedPid := none }, acts)
        else (r.2, [])
      | none => (r.2, [])

/-- `device_del dev_{drive_id}` (`vm_manager.py` line 303). -/
def cmdDeviceDel (driveId : String) : String := "device_del dev_" ++ driveId

/-- `drive_del {drive_id}` (`vm_manager.py` line 307). -/
def cmdDriveDel (driveId : String) : String := "drive_del " ++ driveId

/-- `hotunplug_drive` (`vm_manager.py` lines 298–309): no-op when the VM is
not running; otherwise issues `device_del` then `drive_del`, each through
`send_monitor_command`, which raises `RuntimeError` on any monitor failure
(line 273) — that exception propagates out of `hotunplug_drive`
uncaught. `none` from the monitor models such a failure; the trace lists the
monitor commands actually issued. -/
def hotunplug_drive (running : Bool) (monitor : String → Option String)
    (driveId : String) : Except Unit Unit × List String :=
  if ¬ running then (.ok (), [])
  else
    match monitor (cmdDeviceDel driveId) with
    | none => (.error (), [cmdDeviceDel driveId])
    | some _ =>
      match monitor (cmdDriveDel driveId) with
      | none => (.error (), [cmdDeviceDel driveId, cmdDriveDel driveId])
      | some _ => (.ok (), [cmdDeviceDel driveId, cmdDriveDel driveId])

/-- A concrete environment for the stop-service witness: an owned child that
is alive and whose `terminate()` raises. -/
def envStop : ProcEnv :=
  { pollAlive := fun _ => true, pidExists := fun _ => false, portInUse := false,
    qemuExecExists := true, workerImageExists := true, spawnPid := 99,
    terminateRaises := true, waitTimesOut := false,
    psNoSuchProcess := false, psWaitTimesOut := false }

/-- A concrete environment for the start-service witness: pid 7 is an alive
owned child, and every other precondition would otherwise allow a spawn. -/
def envStart : ProcEnv :=
  { pollAlive := fun p => p = 7, pidExists := fun _ => false, portInUse := false,
    qemuExecExists := true, workerImageExists := true, spawnPid := 99,
    terminateRaises := false, waitTimesOut := false,
    psNoSuchProcess := false, psWaitTimesOut := false }

end VmManager

namespace AppApi

open Py

/-- Host-side actions the mount/eject routes perform, in order: guest shell
commands via `ssh.execute_command`, QEMU monitor commands, `time.sleep`,
`ssh.hot_mount` calls, and the two-command hotplug attach/detach pairs of
`QemuManager` (whose internals are modelled in `VmManager`). -/
inductive Act where
  | guest (cmd : String)
  | monitor (cmd : String)
  | sleep (sec : Nat)
  | hotMount (dev mnt : String)
  | attachDrive
  | detachDrive
deriving DecidableEq

/-- `lsblk -nd -o NAME,TYPE 2>/dev/null` (`app.py` lines 1476–1478). -/
def cmdLsblkDisks : String := "lsblk -nd -o NAME,TYPE 2>/dev/null"

/-- `lsblk -rno NAME,TYPE /dev/{disk} 2>/dev/null` (`app.py` lines 1491–1493). -/
def cmdLsblkPartsOf (disk : String) : String :=
  "lsblk -rno NAME,TYPE /dev/" ++ disk ++ " 2>/dev/null"

/-- The regex `^(fd|loop|sr)\d*$` of `list_real_disks` (`app.py` line 1485):
a floppy/loop/cdrom device name to exclude. -/
def isExcludedDisk (name : String) : Bool :=
  ["fd", "loop", "sr"].any (fun p =>
    strStartsWith name p && (name.toList.drop p.length).all Char.isDigit)

/-- The parsing half of `list_real_disks` (`app.py` lines 1474–1487): rows
with at least two columns whose type column is `disk`, minus excluded
devices. The Python function returns a set; the list stands for it (only
membership and minima are consumed). -/
def list_real_disks_parse (out : String) : List String :=
  (pySplitLines (pyStrip out)).foldl (fun acc line =>
    match pySplitWs line with
    | name :: ty :: _ =>
      if ty = "disk" ∧ ¬ isExcludedDisk (pyStrip name) = true then acc ++ [pyStrip name]
      else acc
    | _ => acc) []

/-- The parsing half of `list_partitions` (`app.py` lines 1489–1499): rows
with at least two columns whose type column is `part`. -/
def list_partitions_parse (out : String) : List String :=
  (pySplitLines (pyStrip out)).foldl (fun acc line =>
    match pySplitWs line with
    | name :: ty :: _ => if ty = "part" then acc ++ [pyStrip name] else acc
    | _ => acc) []

/-- Guest and host behaviour consulted by the mount route. -/
structure MountEnv where
  running : Bool
  hostPathExists : Bool
  hotplugOk : Bool
  disksBefore : String
  disksPoll : Nat → String
  partsOut : String
  mountOk : String → String → Bool

/-- `base_mount = f"/mnt/disk_{drive_id}"` (`app.py` line 1472). -/
def base_mount (driveId : String) : String := "/mnt/disk_" ++ driveId

/-- The best-effort recursive unmount command (`app.py` lines 1581, 1609). -/
def cmdUmountR (driveId : String) : String :=
  "umount -R " ++ base_mount driveId ++ " 2>/dev/null || true"

/-- The mount-root removal command (`app.py` line 1610). -/
def cmdRmMountRoot (driveId : String) : String :=
  "rm -rf " ++ base_mount driveId ++ " 2>/dev/null || true"

/-- Modelled from the spec: `SSHWorker.hot_mount` is called by the mount
route (`app.py` lines 1539 and 1552) but its definition is not present under
`src/`. Per the spec (§4.4 step 4: partitions are mounted "recording
per-partition success independently — a failure on one partition must not
abort mounting the others"), it mounts one device at one mount path and
reports success as a boolean without raising. -/
def hot_mount (env : MountEnv) (dev mnt : String) : Bool := env.mountOk dev mnt

/-- One new-disk diff: the devices reported at poll attempt `i` that were
not in the pre-attach snapshot (`after - before`, `app.py` line 1514). -/
def diffAt (env : MountEnv) (before : List String) (i : Nat) : List String :=
  (list_real_disks_parse (env.disksPoll i)).filter (fun d => ! before.contains d)

/-- The detection poll (`app.py` lines 1509–1517): up to `fuel` further
attempts starting at attempt index `i`; each attempt sleeps 1 s, re-lists
the disks, and stops at the first non-empty diff, choosing
`sorted(new)[0]` — the lexicographic minimum. The trace records the sleeps
and list commands. -/
def detectLoop (env : MountEnv) (before : List String) :
    Nat → Nat → Option String × List Act
  | 0, _ => (none, [])
  | fuel + 1, i =>
    let acts := [Act.sleep 1, Act.guest cmdLsblkDisks]
    match minString? (diffAt env before i) with
    | some name => (some name, acts)
    | none =>
      let rest := detectLoop env before fuel (i + 1)
      (rest.1, acts ++ rest.2)

/-- Per-partition (or whole-device) mount record (`app.py` lines 1540–1557). -/
structure MountRec where
  partition : String
  mount_path : String
  mounted : Bool
deriving DecidableEq

/-- The error kinds of the mount route (`app.py` lines 1461–1468 and the
`except` branch at 1577–1588, whose message wraps the raised exception). -/
inductive MountErr where
  | vmNotRunning
  | invalidPath
  | controlChannel
  | diskNotDetected
  | noMountableVolumes
deriving DecidableEq

/-- The volume records the route builds once the new disk is known
(`app.py` lines 1528–1557): one record per partition, each with its own
`hot_mount` outcome; or a single whole-device record when the disk has no
partition table. -/
def routeMounts (env : MountEnv) (driveId : String) (diskName : String) : List MountRec :=
  let parts := list_partitions_parse env.partsOut
  if parts ≠ [] then
    parts.map (fun p =>
      { partition := "/dev/" ++ p, mount_path := base_mount driveId ++ "/" ++ p,
        mounted := hot_mount env ("/dev/" ++ p) (base_mount driveId ++ "/" ++ p) })
  else
    [{ partition := "/dev/" ++ diskName, mount_path := base_mount driveId,
       mounted := hot_mount env ("/dev/" ++ diskName) (base_mount driveId) }]

/-- The best-effort cleanup of the route's `except` branch (`app.py`
lines 1579–1587): unmount the mount root, then detach the drive, each inside
its own `try/except: pass`. -/
def cleanupActs (driveId : String) : List Act :=
  [Act.guest (cmdUmountR driveId), Act.detachDrive]

/-- `api_core_mount` (`app.py` lines 1452–1588): guards, the pre-attach disk
snapshot, the hotplug attach pair, the bounded detection poll, partition
enumeration and mounting, and the cleanup-then-error `except` branch. -/
def api_core_mount (env : MountEnv) (driveId : String) :
    Except MountErr (String × List MountRec) × List Act :=
  if ¬ env.running then (.error .vmNotRunning, [])
  else if ¬ env.hostPathExists then (.error .invalidPath, [])
  else
    let before := list_real_disks_parse env.disksBefore
    let preActs := [Act.guest cmdLsblkDisks]
    if ¬ env.hotplugOk then
      (.error .controlChannel, preActs ++ [Act.attachDrive] ++ cleanupActs driveId)
    else
      let det := detectLoop env before 6 0
      let actsToDet := preActs ++ [Act.attachDrive] ++ det.2
      match det.1 with
      | none => (.error .diskNotDetected, actsToDet ++ cleanupActs driveId)
      | some name =>
        let mounts := routeMounts env driveId name
        let acts := actsToDet ++ [Act.guest (cmdLsblkPartsOf name)] ++
          mounts.map (fun m => Act.hotMount m.partition m.mount_path)
        if mounts.all (fun m => ! m.mounted) then
          (.error .noMountableVolumes, acts ++ cleanupActs driveId)
        else
          (.ok ("/dev/" ++ name, mounts), acts)

/-- Guest and monitor behaviour consulted by the eject route. -/
structure EjectEnv where
  running : Bool
  guest : String → Option String
  monitor : String → Option String

/-- HTTP-level outcome of the eject route: success, a 400 precondition
error, or the 500 `"Eject failed: ..."` response of the `except` branch
(`app.py` lines 1620–1622). -/
inductive EjectResult where
  | ok
  | badRequest
  | serverError
deriving DecidableEq

/-- `api_core_eject` (`app.py` lines 1593–1622): guards, then inside one
`try`: recursive unmount, mount-root removal, and the hotplug detach pair;
any exception from those steps is caught by the route and returned as a 500
error response. -/
def api_core_eject (env : EjectEnv) (driveId : Option String) :
    EjectResult × List Act :=
  if ¬ env.running then (.badRequest, [])
  else
    match driveId with
    | none => (.badRequest, [])
    | some d =>
      if d = "" then (.badRequest, [])
      else
        let c1 := cmdUmountR d
        match env.guest c1 with
        | none => (.serverError, [Act.guest c1])
        | some _ =>
          let c2 := cmdRmMountRoot d
          match env.guest c2 with
          | none => (.serverError, [Act.guest c1, Act.guest c2])
          | some _ =>
            let hu := VmManager.hotunplug_drive env.running env.monitor d
            let acts := [Act.guest c1, Act.guest c2] ++ hu.2.map Act.monitor
            match hu.1 with
            | .error _ => (.serverError, acts)
            | .ok _ => (.ok, acts)

/-- A concrete eject environment in which the `device_del` monitor command
fails and everything else succeeds. -/
def envEjectFail : EjectEnv :=
  { running := true, guest := fun _ => some "",
    monitor := fun c => if c = VmManager.cmdDeviceDel "d1" then none else some "" }

/-- A concrete eject environment in which every step succeeds. -/
def envEjectOk : EjectEnv :=
  { running := true, guest := fun _ => some "", monitor := fun _ => some "" }

/-- A concrete attach environment: the new disk `sdb` appears at the second
poll with two partitions, of which only the first mounts successfully. -/
def envAttach : MountEnv :=
  { running := true, hostPathExists := true, hotplugOk := true,
    disksBefore := "sda disk\nfd0 disk",
    disksPoll := fun i => if i = 0 then "sda disk" else "sda disk\nsdb disk",
    partsOut := "sdb1 part\nsdb2 part",
    mountOk := fun dev _ => dev = "/dev/sdb1" }

/-- A concrete attach environment in which no new disk ever appears. -/
def envNoDisk : MountEnv :=
  { running := true, hostPathExists := true, hotplugOk := true,
    disksBefore := "sda disk",
    disksPoll := fun _ => "sda disk",
    partsOut := "",
    mountOk := fun _ _ => false }

end AppApi


/-- C10: for every user-supplied path string, `safe_remote_path` either raises
`ValueError` or returns a `vm_path` equal to the (normalised) mount point or
strictly inside it (the mount point followed by `/` is a prefix); no input,
including ones with `..` segments, yields a `vm_path` outside the mount point. -/
theorem safe_remote_path_confined (userPath mountPoint vmPath displayPath : String)
    (h : FileOps.safe_remote_path userPath mountPoint = Except.ok (vmPath, displayPath)) :
    vmPath = Py.rstripSlash mountPoint ∨
      Py.strStartsWith vmPath (Py.rstripSlash mountPoint ++ "/") = true := by
  simp only [FileOps.safe_remote_path] at h
  split at h
  · rename_i hcond
    cases h
    exact hcond
  · exact absurd h (by simp)

/-- Witness for C10: the traversal attempt `"/../../etc/passwd"` resolves to a
path strictly inside `/mnt/android`. -/
theorem safe_remote_path_confined_witness :
    FileOps.safe_remote_path "/../../etc/passwd" "/mnt/android" =
      Except.ok ("/mnt/android/etc/passwd", "/etc/passwd") ∧
    ("/mnt/android/etc/passwd" = Py.rstripSlash "/mnt/android" ∨
      Py.strStartsWith "/mnt/android/etc/passwd" (Py.rstripSlash "/mnt/android" ++ "/") = true) :=
  ⟨by decide, safe_remote_path_confined "/../../etc/passwd" "/mnt/android"
    "/mnt/android/etc/passwd" "/etc/passwd" (by decide)⟩

/-- Helper: full characterisation of the candidate loop. On success, the
candidate list splits as failed-prefix ++ returned-device ++ untried-tail,
the attempt trace records exactly the failed prefix then the one success,
and the Android flag mirrors the sanity-check output; on exhaustion every
candidate was tried and failed verification. -/
theorem mtLoop_spec (env : SshWorker.GuestEnv) (cands : List String) :
    ∀ (hist : List String) (acc : List (String × Bool)),
      match SshWorker.mtLoop env hist acc cands with
      | .ok r =>
          ∃ failed post, cands = failed ++ r.device :: post ∧
            r.attempts = acc ++ failed.map (fun d => (d, false)) ++ [(r.device, true)] ∧
            r.isAndroidMounted = !(Py.strContains r.fsCheck "CHECK_FAIL")
      | .exhausted att => att = acc ++ cands.map (fun d => (d, false))
      | .raised => True := by
  induction cands with
  | nil =>
    intro hist acc
    simp [SshWorker.mtLoop]
  | cons d rest ih =>
    intro hist acc
    simp only [SshWorker.mtLoop, SshWorker.exec]
    cases h1 : env hist (SshWorker.cmdMount d) with
    | none => trivial
    | some out1 =>
      cases h2 : env (hist ++ [SshWorker.cmdMount d]) SshWorker.cmdVerify with
      | none => trivial
      | some chk =>
        by_cases hok : Py.pyStrip chk = "OK"
        · simp only [hok, if_pos]
          cases h3 : env (hist ++ [SshWorker.cmdMount d] ++ [SshWorker.cmdVerify])
              SshWorker.cmdCheckFs with
          | none => trivial
          | some fsOut =>
            exact ⟨[], rest, rfl, by simp, rfl⟩
        · simp only [hok, if_neg, if_false]
          have hrec := ih (hist ++ [SshWorker.cmdMount d] ++ [SshWorker.cmdVerify])
            (acc ++ [(d, false)])
          revert hrec
          cases SshWorker.mtLoop env (hist ++ [SshWorker.cmdMount d] ++ [SshWorker.cmdVerify])
              (acc ++ [(d, false)]) rest with
          | ok r =>
            rintro ⟨failed, post, hcands, hatt, hflag⟩
            exact ⟨d :: failed, post, by simp [hcands], by simp [hatt], hflag⟩
          | exhausted att =>
            intro hatt
            simp [hatt]
          | raised => intro; trivial

/-- Helper: full characterisation of `mount_target`: the candidate order is
the smart candidate followed by the de-duplicated static list, candidates
are tried strictly in that order, the first verified mount is returned with
all earlier candidates recorded as failed, the Android flag mirrors the
sanity check, and the `MountFailed` error names exactly that candidate
list. -/
theorem mount_target_spec (emu : Option String) (env : SshWorker.GuestEnv) :
    match SshWorker.mount_target emu env with
    | .ok r =>
        ∃ failed post,
          SshWorker.mtCandidates (SshWorker.smartCand emu env) = failed ++ r.device :: post ∧
          r.attempts = failed.map (fun d => (d, false)) ++ [(r.device, true)] ∧
          r.isAndroidMounted = !(Py.strContains r.fsCheck "CHECK_FAIL")
    | .mountFailed cs => cs = SshWorker.mtCandidates (SshWorker.smartCand emu env)
    | .raised => True := by
  unfold SshWorker.mount_target SshWorker.smartCand
  simp only [SshWorker.exec, List.nil_append, List.cons_append]
  cases h1 : env [] SshWorker.cmdMkdir with
  | none => trivial
  | some o1 =>
    cases h2 : env [SshWorker.cmdMkdir] SshWorker.cmdUmount with
    | none => trivial
    | some o2 =>
      cases hsc : SshWorker.strategyCandidate emu env
          [SshWorker.cmdMkdir, SshWorker.cmdUmount] with
      | mk h3 cand =>
        have hspec := mtLoop_spec env (SshWorker.mtCandidates cand) h3 []
        revert hspec
        cases SshWorker.mtLoop env h3 [] (SshWorker.mtCandidates cand) with
        | ok r =>
          rintro ⟨failed, post, hcands, hatt, hflag⟩
          exact ⟨failed, post, hcands, by simpa using hatt, hflag⟩
        | exhausted att => intro _; rfl
        | raised => intro _; trivial

/-- C1 (amended): `mount_target()` tries candidates strictly in the order:
the single smart candidate — the product-specific `/dev/vdb2` when the
emulator type is LDPlayer and the probe reports it present, otherwise the
largest-by-bytes partition of the fallback enumeration — followed by the
static legacy list minus that candidate; it stops at and returns the first
candidate that both mounts and verifies as an actual mount point, recording
every earlier candidate as a failed attempt; when every candidate fails the
error names exactly that candidate list. (The largest-partition fallback is
computed only when the product-specific primary is absent, so it is not
always part of the candidate order.) -/
theorem mount_target_candidate_order (emu : Option String) (env : SshWorker.GuestEnv) :
    match SshWorker.mount_target emu env with
    | .ok r =>
        ∃ failed post,
          SshWorker.mtCandidates (SshWorker.smartCand emu env) = failed ++ r.device :: post ∧
          r.attempts = failed.map (fun d => (d, false)) ++ [(r.device, true)]
    | .mountFailed cs => cs = SshWorker.mtCandidates (SshWorker.smartCand emu env)
    | .raised => True := by
  have h := mount_target_spec emu env
  revert h
  cases SshWorker.mount_target emu env with
  | ok r =>
    rintro ⟨failed, post, hcands, hatt, _⟩
    exact ⟨failed, post, hcands, hatt⟩
  | mountFailed cs => exact id
  | raised => exact id

/-- C1 counterexample: on a guest where LDPlayer's `/dev/vdb2` probe reports
present and the fallback enumeration output names `/dev/vdb3` as the largest
partition, `mount_target` never places `/dev/vdb3` in the candidate order:
all candidates fail and the error names only the primary and the static
list — refuting "the largest-partition fallback candidate is always part of
the remaining candidate order". -/
theorem mount_target_largest_not_in_order :
    SshWorker.envLd [SshWorker.cmdMkdir, SshWorker.cmdUmount, SshWorker.cmdProbeVdb2]
        SshWorker.cmdLsblkParts = some "vdb1 100 part\nvdb3 999 part" ∧
    SshWorker.largestPartFromRaw "vdb1 100 part\nvdb3 999 part" = some "/dev/vdb3" ∧
    SshWorker.mount_target (some "LDPLAYER") SshWorker.envLd =
      .mountFailed ["/dev/vdb2", "/dev/vdb1", "/dev/vdb", "/dev/sdb2", "/dev/sdb1", "/dev/sdb"] ∧
    "/dev/vdb3" ∉ ["/dev/vdb2", "/dev/vdb1", "/dev/vdb", "/dev/sdb2", "/dev/sdb1", "/dev/sdb"] := by
  refine ⟨by decide, by decide, by decide, by decide⟩

/-- C7: whenever `mount_target()` reaches a verified mount it returns the
device name (an `ok` result) regardless of the root-marker sanity check's
outcome, and `is_android_mounted` is set to true iff that sanity check
passed (its output did not contain `CHECK_FAIL`); a failed sanity check
neither undoes the mount nor aborts the call. -/
theorem mount_target_sanity_flag (emu : Option String) (env : SshWorker.GuestEnv)
    (r : SshWorker.MountOk) (h : SshWorker.mount_target emu env = .ok r) :
    r.isAndroidMounted = true ↔ Py.strContains r.fsCheck "CHECK_FAIL" = false := by
  have hs := mount_target_spec emu env
  rw [h] at hs
  obtain ⟨_, _, _, _, hflag⟩ := hs
  rw [hflag]
  cases Py.strContains r.fsCheck "CHECK_FAIL" with
  | false => simp
  | true => simp

/-- Witness for C7: a guest whose sanity check reports `CHECK_FAIL` still
gets the device name returned, with `is_android_mounted = false`. -/
theorem mount_target_sanity_flag_witness :
    SshWorker.mount_target none SshWorker.envFs =
      .ok { device := "/dev/vdb2", isAndroidMounted := false, fsCheck := "CHECK_FAIL",
            attempts := [("/dev/vdb2", true)] } ∧
    (false = true ↔ Py.strContains "CHECK_FAIL" "CHECK_FAIL" = false) :=
  ⟨by decide, mount_target_sanity_flag none SshWorker.envFs
    { device := "/dev/vdb2", isAndroidMounted := false, fsCheck := "CHECK_FAIL",
      attempts := [("/dev/vdb2", true)] } (by decide)⟩

/-- C3 (code-bug evidence): `ssh_worker.py` never imports `time` (or
`socket`), so `wait_for_connection(timeout)` raises `NameError` at its first
statement for every timeout and every network environment — it neither polls
nor raises the documented `TimeoutError`. -/
theorem wait_for_connection_raises_name_error (timeout : Nat) (env : SshWorker.NetEnv) :
    SshWorker.wait_for_connection timeout env = .nameError "time" := by
  simp [SshWorker.wait_for_connection, SshWorker.resolvesName, SshWorker.moduleNames,
    SshWorker.moduleImports, SshWorker.pythonBuiltins]

/-- C8: `check_health()` ignores the persistent session entirely (the result
is the same for any value of `self._client`), closes its fresh probe
connection on every path, and returns true iff the probe connected, the
command executed, and the output (stripped, as the code reads it) equals the
sentinel exactly; every error path returns false rather than raising (the
embedding is a total function with no error outcome). -/
theorem check_health_probe_contract (c c' : Option Unit) (env : SshWorker.ProbeEnv) :
    (SshWorker.check_health c env).probeClosed = true ∧
    SshWorker.check_health c env = SshWorker.check_health c' env ∧
    ((SshWorker.check_health c env).result = true ↔
      env.connectOk = true ∧
        ∃ s, env.execOut = some s ∧ Py.pyStrip s = SshWorker.HEALTH_SENTINEL) := by
  unfold SshWorker.check_health
  cases hc : env.connectOk with
  | false => simp
  | true =>
    cases he : env.execOut with
    | none => simp
    | some out => simp

/-- C5: with the data-model invariant that the owned handle and the adopted
pid are mutually exclusive, whenever the supervised VM process is alive —
the owned handle polls alive, or the adopted (truthy) pid still exists —
`start_service` fails with `AlreadyRunning`, spawns nothing, and leaves the
session state unchanged. -/
theorem start_service_already_running (s : VmManager.VmState) (env : VmManager.ProcEnv)
    (hmx : s.currentProcess = none ∨ s.attachedPid = none)
    (halive : (∃ p, s.currentProcess = some p ∧ env.pollAlive p = true) ∨
      (∃ pid, s.attachedPid = some pid ∧ pid ≠ 0 ∧ env.pidExists pid = true)) :
    VmManager.start_service s env =
      { result := .error .alreadyRunning, state := s, spawned := false } := by
  have hrun : VmManager.is_running s env = (true, s) := by
    rcases halive with ⟨p, hp, halive⟩ | ⟨pid, hpid, hnz, hex⟩
    · simp [VmManager.is_running, hp, halive]
    · rcases hmx with hc | hc
      · simp [VmManager.is_running, hc, hpid, hnz, hex]
      · rw [hpid] at hc
        exact absurd hc (by simp)
  simp [VmManager.start_service, hrun]

/-- Witness for C5: an alive owned child (pid 7) makes `start_service` fail
with `AlreadyRunning` without spawning or changing state. -/
theorem start_service_already_running_witness :
    VmManager.start_service ⟨some 7, none⟩ VmManager.envStart =
      { result := .error .alreadyRunning, state := ⟨some 7, none⟩, spawned := false } :=
  start_service_already_running ⟨some 7, none⟩ VmManager.envStart (Or.inr rfl)
    (Or.inl ⟨7, rfl, by decide⟩)

/-- C9: with the mutual-exclusivity invariant, `stop_service` always returns
with both the owned handle and the adopted pid cleared — including when
`terminate()` raised or the grace wait timed out — and when nothing is
running it succeeds as a no-op, attempting no termination call at all. -/
theorem stop_service_clears_state (s : VmManager.VmState) (env : VmManager.ProcEnv)
    (hmx : s.currentProcess = none ∨ s.attachedPid = none) :
    (VmManager.stop_service s env).1.currentProcess = none ∧
    (VmManager.stop_service s env).1.attachedPid = none ∧
    ((VmManager.is_running s env).1 = false → (VmManager.stop_service s env).2 = []) := by
  rcases s with ⟨cur, att⟩
  cases cur with
  | some p =>
    have hatt : att = none := by
      rcases hmx with h | h
      · exact absurd h (by simp)
      · exact h
    subst hatt
    by_cases halive : env.pollAlive p = true
    · simp [VmManager.stop_service, VmManager.is_running, halive]
    · simp [VmManager.stop_service, VmManager.is_running,
        Bool.not_eq_true _ ▸ halive, halive]
  | none =>
    cases att with
    | none => simp [VmManager.stop_service, VmManager.is_running]
    | some pid =>
      by_cases hz : pid = 0
      · simp [VmManager.stop_service, VmManager.is_running, hz]
      · by_cases hex : env.pidExists pid = true
        · simp [VmManager.stop_service, VmManager.is_running, hz, hex]
        · simp [VmManager.stop_service, VmManager.is_running, hz, hex]

/-- Witness for C9: stopping an alive owned child whose `terminate()` raises
still clears both fields, and the hypothesis is satisfiable. -/
theorem stop_service_clears_state_witness :
    (VmManager.stop_service ⟨some 5, none⟩ VmManager.envStop).1.currentProcess = none ∧
    (VmManager.stop_service ⟨some 5, none⟩ VmManager.envStop).1.attachedPid = none :=
  ⟨(stop_service_clears_state ⟨some 5, none⟩ VmManager.envStop (Or.inr rfl)).1,
   (stop_service_clears_state ⟨some 5, none⟩ VmManager.envStop (Or.inr rfl)).2.1⟩

/-- Helper: substring containment is preserved by prepending. -/
theorem containsSubList_append_right (pat : List Char) :
    ∀ a b : List Char, Py.containsSubList b pat = true →
      Py.containsSubList (a ++ b) pat = true := by
  intro a
  induction a with
  | nil => intro b h; simpa using h
  | cons c rest ih =>
    intro b h
    simp only [List.cons_append, Py.containsSubList, Bool.or_eq_true]
    exact Or.inr (ih b h)

/-- Helper: `strContains` on an appended suffix. -/
theorem strContains_append_right (a b pat : String)
    (h : Py.strContains b pat = true) : Py.strContains (a ++ b) pat = true := by
  unfold Py.strContains at h ⊢
  have hab : (a ++ b).toList = a.toList ++ b.toList := by
    simp [String.toList, String.data_append]
  rw [hab]
  exact containsSubList_append_right _ a.toList b.toList h

/-- C4 counterexample: with a guest where both shell steps succeed but the
`device_del` monitor command fails, the eject route returns a 500 error to
the caller — it does not complete — and the `drive_del` command is never
issued, refuting "errors are logged but never raised to the caller, so
eject always completes". -/
theorem eject_monitor_failure_surfaces :
    AppApi.api_core_eject AppApi.envEjectFail (some "d1") =
      (.serverError,
        [.guest (AppApi.cmdUmountR "d1"), .guest (AppApi.cmdRmMountRoot "d1"),
         .monitor (VmManager.cmdDeviceDel "d1")]) ∧
    AppApi.Act.monitor (VmManager.cmdDriveDel "d1") ∉
      (AppApi.api_core_eject AppApi.envEjectFail (some "d1")).2 := by
  refine ⟨by decide, by decide⟩

/-- C4 (amended): on the detach path, the guest-side unmount and mount-root
removal are best-effort only at the shell level (their command strings end
in `|| true`), but exceptions are not suppressed by the route: eject
succeeds iff the unmount command, the removal command, and both
control-protocol commands (`device_del`, then `drive_del`) all succeed; a
failure of any step aborts the remaining steps and is returned to the
caller as an error response, and in particular a failing `device_del` skips
`drive_del`. -/
theorem eject_detach_steps (env : AppApi.EjectEnv) (d : String)
    (hrun : env.running = true) (hd : d ≠ "") :
    ((AppApi.api_core_eject env (some d)).1 = .ok ↔
      (env.guest (AppApi.cmdUmountR d) ≠ none ∧
       env.guest (AppApi.cmdRmMountRoot d) ≠ none ∧
       env.monitor (VmManager.cmdDeviceDel d) ≠ none ∧
       env.monitor (VmManager.cmdDriveDel d) ≠ none)) ∧
    (env.monitor (VmManager.cmdDeviceDel d) = none →
      AppApi.Act.monitor (VmManager.cmdDriveDel d) ∉
        (AppApi.api_core_eject env (some d)).2) ∧
    Py.strContains (AppApi.cmdUmountR d) "|| true" = true ∧
    Py.strContains (AppApi.cmdRmMountRoot d) "|| true" = true := by
  have hu : Py.strContains (AppApi.cmdUmountR d) "|| true" = true := by
    unfold AppApi.cmdUmountR
    exact strContains_append_right _ _ _ (by decide)
  have hr : Py.strContains (AppApi.cmdRmMountRoot d) "|| true" = true := by
    unfold AppApi.cmdRmMountRoot
    exact strContains_append_right _ _ _ (by decide)
  refine ⟨?_, ?_, hu, hr⟩
  · unfold AppApi.api_core_eject VmManager.hotunplug_drive
    simp only [hrun]
    cases h1 : env.guest (AppApi.cmdUmountR d) with
    | none => simp [hd, h1]
    | some o1 =>
      cases h2 : env.guest (AppApi.cmdRmMountRoot d) with
      | none => simp [hd, h1, h2]
      | some o2 =>
        cases h3 : env.monitor (VmManager.cmdDeviceDel d) with
        | none => simp [hd, h1, h2, h3]
        | some o3 =>
          cases h4 : env.monitor (VmManager.cmdDriveDel d) with
          | none => simp [hd, h1, h2, h3, h4]
          | some o4 => simp [hd, h1, h2, h3, h4]
  · intro h3
    unfold AppApi.api_core_eject VmManager.hotunplug_drive
    simp only [hrun]
    cases h1 : env.guest (AppApi.cmdUmountR d) with
    | none => simp [hd, h1]
    | some o1 =>
      cases h2 : env.guest (AppApi.cmdRmMountRoot d) with
      | none => simp [hd, h1, h2]
      | some o2 =>
        simp only [hd, h1, h2, h3]
        intro hmem
        simp [AppApi.Act.monitor.injEq] at hmem
        have : VmManager.cmdDriveDel d = VmManager.cmdDeviceDel d := by
          rcases hmem with h | h | h <;> simp_all
        unfold VmManager.cmdDriveDel VmManager.cmdDeviceDel at this
        have hchars := congrArg String.toList this
        simp [String.toList, String.data_append] at hchars

/-- Witness for C4: with every step succeeding, eject returns success. -/
theorem eject_detach_steps_witness :
    (AppApi.api_core_eject AppApi.envEjectOk (some "d1")).1 = .ok :=
  ((eject_detach_steps AppApi.envEjectOk "d1" rfl (by decide)).1).mpr
    ⟨by decide, by decide, by decide, by decide⟩

/-- Helper: folding the minimum over a `some` accumulator stays `some`. -/
theorem minString?_aux (xs : List String) :
    ∀ a : String, ∃ m, xs.foldl (fun acc x =>
      match acc with
      | none => some x
      | some a => some (if Py.strLt x a then x else a)) (some a) = some m := by
  induction xs with
  | nil => intro a; exact ⟨a, rfl⟩
  | cons x rest ih => intro a; simpa using ih (if Py.strLt x a then x else a)

/-- Helper: the lexicographic minimum is `none` exactly on the empty list. -/
theorem minString?_eq_none (l : List String) : Py.minString? l = none ↔ l = [] := by
  cases l with
  | nil => simp [Py.minString?]
  | cons x rest =>
    simp only [Py.minString?, List.foldl_cons]
    obtain ⟨m, hm⟩ := minString?_aux rest x
    simp [hm]

/-- Helper: full characterisation of the detection poll: `none` iff every
attempt's diff in the window is empty; the first attempt with a non-empty
diff determines the result as that diff's lexicographic minimum; and the
trace is some number (at most `fuel`) of sleep-1-then-list rounds. -/
theorem detectLoop_spec (env : AppApi.MountEnv) (before : List String) :
    ∀ (fuel i : Nat),
      ((AppApi.detectLoop env before fuel i).1 = none ↔
        ∀ j, j < fuel → AppApi.diffAt env before (i + j) = []) ∧
      (∀ j, j < fuel → (∀ k, k < j → AppApi.diffAt env before (i + k) = []) →
        AppApi.diffAt env before (i + j) ≠ [] →
        (AppApi.detectLoop env before fuel i).1 =
          Py.minString? (AppApi.diffAt env before (i + j))) ∧
      (∃ n, n ≤ fuel ∧ (AppApi.detectLoop env before fuel i).2 =
        (List.replicate n [AppApi.Act.sleep 1, AppApi.Act.guest AppApi.cmdLsblkDisks]).flatten) := by
  intro fuel
  induction fuel with
  | zero =>
    intro i
    exact ⟨by simp [AppApi.detectLoop], by simp, ⟨0, by simp [AppApi.detectLoop]⟩⟩
  | succ fuel ih =>
    intro i
    simp only [AppApi.detectLoop]
    cases hmin : Py.minString? (AppApi.diffAt env before i) with
    | some name =>
      have hne : AppApi.diffAt env before i ≠ [] := by
        intro he
        rw [he] at hmin
        simp [Py.minString?] at hmin
      refine ⟨?_, ?_, ⟨1, by omega, by simp⟩⟩
      · constructor
        · intro h; exact absurd h (by simp)
        · intro hall
          exact absurd (by simpa using hall 0 (Nat.succ_pos _)) hne
      · intro j hj hearlier hnej
        cases j with
        | zero => simpa using hmin.symm
        | succ j' =>
          have h0 : AppApi.diffAt env before (i + 0) = [] :=
            hearlier 0 (Nat.succ_pos _)
          simp only [Nat.add_zero] at h0
          exact absurd h0 hne
    | none =>
      have hemp : AppApi.diffAt env before i = [] := (minString?_eq_none _).mp hmin
      obtain ⟨hiff, hfirst, n, hn, htr⟩ := ih (i + 1)
      refine ⟨?_, ?_, ⟨n + 1, by omega, by simp [htr, List.replicate_succ]⟩⟩
      · constructor
        · intro hnone j hj
          cases j with
          | zero => simpa using hemp
          | succ j' =>
            have : i + (j' + 1) = (i + 1) + j' := by omega
            rw [this]
            exact hiff.mp hnone j' (by omega)
        · intro hall
          exact hiff.mpr (fun j hj => by
            have : (i + 1) + j = i + (j + 1) := by omega
            rw [this]
            exact hall (j + 1) (by omega))
      · intro j hj hearlier hnej
        cases j with
        | zero =>
          simp only [Nat.add_zero] at hnej
          exact absurd hemp hnej
        | succ j' =>
          have hshift : i + (j' + 1) = (i + 1) + j' := by omega
          rw [hshift] at hnej ⊢
          exact hfirst j' (by omega) (fun k hk => by
            have : (i + 1) + k = i + (k + 1) := by omega
            rw [this]
            exact hearlier (k + 1) (by omega)) hnej

/-- C6: after the attach commands, the guest's real-disk set is polled at a
fixed 1-second interval for at most 6 attempts (the trace is at most 6
sleep-then-list rounds); the detection result is `none` iff every attempt's
`after - before` diff is empty, the first attempt with a non-empty diff
yields the lexicographically-first new name (`sorted(new)[0]`), and a
`none` detection makes the attach fail with the DiskNotDetected error. -/
theorem attach_disk_detection (env : AppApi.MountEnv) (driveId : String)
    (hrun : env.running = true) (hpath : env.hostPathExists = true)
    (hplug : env.hotplugOk = true) :
    ((AppApi.detectLoop env (AppApi.list_real_disks_parse env.disksBefore) 6 0).1 = none ↔
      ∀ j, j < 6 → AppApi.diffAt env (AppApi.list_real_disks_parse env.disksBefore) j = []) ∧
    (∀ j, j < 6 →
      (∀ k, k < j → AppApi.diffAt env (AppApi.list_real_disks_parse env.disksBefore) k = []) →
      AppApi.diffAt env (AppApi.list_real_disks_parse env.disksBefore) j ≠ [] →
      (AppApi.detectLoop env (AppApi.list_real_disks_parse env.disksBefore) 6 0).1 =
        Py.minString? (AppApi.diffAt env (AppApi.list_real_disks_parse env.disksBefore) j)) ∧
    (∃ n, n ≤ 6 ∧
      (AppApi.detectLoop env (AppApi.list_real_disks_parse env.disksBefore) 6 0).2 =
        (List.replicate n [AppApi.Act.sleep 1, AppApi.Act.guest AppApi.cmdLsblkDisks]).flatten) ∧
    ((AppApi.detectLoop env (AppApi.list_real_disks_parse env.disksBefore) 6 0).1 = none →
      (AppApi.api_core_mount env driveId).1 = .error .diskNotDetected) := by
  obtain ⟨hiff, hfirst, htrace⟩ :=
    detectLoop_spec env (AppApi.list_real_disks_parse env.disksBefore) 6 0
  refine ⟨by simpa using hiff, ?_, htrace, ?_⟩
  · intro j hj hearlier hne
    have := hfirst j hj (fun k hk => by simpa using hearlier k hk) (by simpa using hne)
    simpa using this
  · intro hnone
    unfold AppApi.api_core_mount
    simp [hrun, hpath, hplug, hnone]

/-- Witness for C6: a guest whose disk set never changes across all 6
attempts makes the attach fail with the DiskNotDetected error. -/
theorem attach_disk_detection_witness :
    (AppApi.api_core_mount AppApi.envNoDisk "drv").1 =
      .error AppApi.MountErr.diskNotDetected :=
  (attach_disk_detection AppApi.envNoDisk "drv" rfl rfl rfl).2.2.2 (by decide)

/-- C2: once the new guest device is discovered, every enumerated partition
gets its own mount record under the handle's mount root with its own
independent `hot_mount` outcome (one partition's failure does not remove any
other partition from the batch); a partitionless device is mounted whole at
the mount root; when zero volumes mounted the route fails with the
NoMountableVolumes error after best-effort unmounting and detaching; and
when at least one volume mounted it returns the device and all records. -/
theorem attach_mounts_volumes (env : AppApi.MountEnv) (driveId name : String)
    (hrun : env.running = true) (hpath : env.hostPathExists = true)
    (hplug : env.hotplugOk = true)
    (hdet : (AppApi.detectLoop env (AppApi.list_real_disks_parse env.disksBefore) 6 0).1 =
      some name) :
    (∀ p ∈ AppApi.list_partitions_parse env.partsOut,
      ({ partition := "/dev/" ++ p,
         mount_path := AppApi.base_mount driveId ++ "/" ++ p,
         mounted := env.mountOk ("/dev/" ++ p) (AppApi.base_mount driveId ++ "/" ++ p) }
        : AppApi.MountRec) ∈ AppApi.routeMounts env driveId name) ∧
    (AppApi.list_partitions_parse env.partsOut = [] →
      AppApi.routeMounts env driveId name =
        [{ partition := "/dev/" ++ name, mount_path := AppApi.base_mount driveId,
           mounted := env.mountOk ("/dev/" ++ name) (AppApi.base_mount driveId) }]) ∧
    ((AppApi.routeMounts env driveId name).all (fun m => ! m.mounted) = true →
      (AppApi.api_core_mount env driveId).1 = .error .noMountableVolumes ∧
      AppApi.Act.guest (AppApi.cmdUmountR driveId) ∈ (AppApi.api_core_mount env driveId).2 ∧
      AppApi.Act.detachDrive ∈ (AppApi.api_core_mount env driveId).2) ∧
    ((AppApi.routeMounts env driveId name).all (fun m => ! m.mounted) = false →
      (AppApi.api_core_mount env driveId).1 =
        .ok ("/dev/" ++ name, AppApi.routeMounts env driveId name)) := by
  refine ⟨?_, ?_, ?_, ?_⟩
  · intro p hp
    have hne : AppApi.list_partitions_parse env.partsOut ≠ [] := by
      intro h
      rw [h] at hp
      cases hp
    unfold AppApi.routeMounts AppApi.hot_mount
    simp only [hne, if_pos, ne_eq, not_false_eq_true, if_true]
    exact List.mem_map_of_mem _ hp
  · intro h
    unfold AppApi.routeMounts AppApi.hot_mount
    simp [h]
  · intro hall
    unfold AppApi.api_core_mount
    simp only [hrun, hpath, hplug, hdet, Bool.not_true, if_neg, ite_false]
    simp [hdet, hall, AppApi.cleanupActs]
  · intro hsome
    unfold AppApi.api_core_mount
    simp [hrun, hpath, hplug, hdet, hsome]

/-- Witness for C2: the disk `sdb` is discovered on the second attempt; its
first partition mounts and its second fails, and the route still returns
success with both records. -/
theorem attach_mounts_volumes_witness :
    (AppApi.api_core_mount AppApi.envAttach "drv").1 =
      .ok ("/dev/sdb", AppApi.routeMounts AppApi.envAttach "drv" "sdb") :=
  (attach_mounts_volumes AppApi.envAttach "drv" "sdb" rfl rfl rfl (by decide)).2.2.2
    (by decide)
